import Mathlib

/-!
# Verification of the webgpu-native-examples sources

A shallow embedding, in Lean 4, of the logic of three example programs of the
repository (`reversed_z.c`, `textured_quad.c`, `compute_particles.c`) and of
the example registry (`examples.c`).  Definitions mirror the C source:
enumerations become inductive types, the C structs become structures, the
static descriptor tables become a `DescriptorState` record threaded through
the per-frame functions, and machine floats that only ever hold exactly
representable constants (0.0, 0.5, 1.0, ...) are modelled as rationals.
Enumeration codes (`WGPULoadOp_Clear = 0`, `WGPULoadOp_Load = 1`,
`WGPUStoreOp_Store = 0`) follow the WebGPU native header of the era the code
targets; the zero code is what C compound-literal zero-initialization
produces for unspecified fields.
-/

namespace WGPU

/-- `WGPULoadOp`: code 0 = Clear, code 1 = Load (header of the targeted era). -/
inductive LoadOp
  | clear
  | load
  deriving DecidableEq, Repr

/-- `WGPUStoreOp`: code 0 = Store, code 1 = Clear. -/
inductive StoreOp
  | store
  | clear
  deriving DecidableEq, Repr

/-- The C assignment `desc.depthLoadOp = depth_load_values[m]` converts the
float constant (1.0f or 0.0f) to the `WGPULoadOp` enum through the C
float-to-integer conversion; code 0 is Clear and code 1 is Load. -/
def loadOpOfFloat (x : ℚ) : LoadOp :=
  if x = 0 then LoadOp.clear else LoadOp.load

/-- `WGPUCompareFunction` (the two members this code uses). -/
inductive CompareFunction
  | less
  | greater
  deriving DecidableEq, Repr

/-- `WGPUColor`. -/
structure Color where
  r : ℚ
  g : ℚ
  b : ℚ
  a : ℚ
  deriving DecidableEq, Repr

end WGPU

/-! ## `examples.c` : the example registry -/

namespace examples_c

/-- The entry-point functions declared at the top of `examples.c`; an opaque
handle per function, one constructor per declared `example_*` symbol that is
registered in `g_example_cases`. -/
inductive ExampleFunc
  | example_animometer
  | example_basisu
  | example_bind_groups
  | example_bloom
  | example_clear_screen
  | example_compute_boids
  | example_compute_particles
  | example_compute_particles_easing
  | example_compute_particles_webgpu_logo
  | example_compute_ray_tracing
  | example_compute_shader
  | example_conservative_raster
  | example_conway
  | example_conway_paletted_blurring
  | example_coordinate_system
  | example_cube_reflection
  | example_cubemap
  | example_deferred_rendering
  | example_dynamic_uniform_buffer
  | example_equirectangular_image
  | example_gears
  | example_gerstner_waves
  | example_gltf_loading
  | example_gltf_scene_rendering
  | example_hdr
  | example_image_blur
  | example_imgui_overlay
  | example_immersive_video
  | example_instanced_cube
  | example_minimal
  | example_msaa_line
  | example_multi_sampling
  | example_n_body_simulation
  | example_occlusion_query
  | example_offscreen_rendering
  | example_parallax_mapping
  | example_pbr_basic
  | example_pbr_ibl
  | example_pbr_texture
  | example_post_processing
  | example_prng
  | example_procedural_mesh
  | example_radial_blur
  | example_reversed_z
  | example_screenshot
  | example_shadertoy
  | example_shadow_mapping
  | example_skybox
  | example_square
  | example_stencil_buffer
  | example_terrain_mesh
  | example_text_overlay
  | example_texture_3d
  | example_texture_mipmap_gen
  | example_textured_cube
  | example_textured_quad
  | example_triangle
  | example_two_cubes
  | example_video_uploading
  | example_wireframe_vertex_pulling
  deriving DecidableEq, Repr

/-- `examplecase_t`: a registry entry (name and entry-point function). -/
structure examplecase_t where
  example_name : String
  example_func : ExampleFunc
  deriving DecidableEq, Repr

/-- `g_example_cases`: the static registry table of `examples.c`
(the `aquarium` entry is commented out in the source and hence absent). -/
def g_example_cases : List examplecase_t := [
  ⟨"animometer", .example_animometer⟩,
  ⟨"basisu", .example_basisu⟩,
  ⟨"bind_groups", .example_bind_groups⟩,
  ⟨"bloom", .example_bloom⟩,
  ⟨"clear_screen", .example_clear_screen⟩,
  ⟨"compute_boids", .example_compute_boids⟩,
  ⟨"compute_particles", .example_compute_particles⟩,
  ⟨"compute_particles_easing", .example_compute_particles_easing⟩,
  ⟨"compute_particles_webgpu_logo", .example_compute_particles_webgpu_logo⟩,
  ⟨"compute_ray_tracing", .example_compute_ray_tracing⟩,
  ⟨"compute_shader", .example_compute_shader⟩,
  ⟨"conservative_raster", .example_conservative_raster⟩,
  ⟨"conway", .example_conway⟩,
  ⟨"conway_paletted_blurring", .example_conway_paletted_blurring⟩,
  ⟨"coordinate_system", .example_coordinate_system⟩,
  ⟨"cube_reflection", .example_cube_reflection⟩,
  ⟨"cubemap", .example_cubemap⟩,
  ⟨"deferred_rendering", .example_deferred_rendering⟩,
  ⟨"dynamic_uniform_buffer", .example_dynamic_uniform_buffer⟩,
  ⟨"equirectangular_image", .example_equirectangular_image⟩,
  ⟨"gears", .example_gears⟩,
  ⟨"gerstner_waves", .example_gerstner_waves⟩,
  ⟨"gltf_loading", .example_gltf_loading⟩,
  ⟨"gltf_scene_rendering", .example_gltf_scene_rendering⟩,
  ⟨"hdr", .example_hdr⟩,
  ⟨"image_blur", .example_image_blur⟩,
  ⟨"imgui_overlay", .example_imgui_overlay⟩,
  ⟨"immersive_video", .example_immersive_video⟩,
  ⟨"instanced_cube", .example_instanced_cube⟩,
  ⟨"minimal", .example_minimal⟩,
  ⟨"msaa_line", .example_msaa_line⟩,
  ⟨"multi_sampling", .example_multi_sampling⟩,
  ⟨"n_body_simulation", .example_n_body_simulation⟩,
  ⟨"occlusion_query", .example_occlusion_query⟩,
  ⟨"offscreen_rendering", .example_offscreen_rendering⟩,
  ⟨"parallax_mapping", .example_parallax_mapping⟩,
  ⟨"pbr_basic", .example_pbr_basic⟩,
  ⟨"pbr_ibl", .example_pbr_ibl⟩,
  ⟨"pbr_texture", .example_pbr_texture⟩,
  ⟨"post_processing", .example_post_processing⟩,
  ⟨"prng", .example_prng⟩,
  ⟨"procedural_mesh", .example_procedural_mesh⟩,
  ⟨"radial_blur", .example_radial_blur⟩,
  ⟨"reversed_z", .example_reversed_z⟩,
  ⟨"screenshot", .example_screenshot⟩,
  ⟨"shadertoy", .example_shadertoy⟩,
  ⟨"shadow_mapping", .example_shadow_mapping⟩,
  ⟨"skybox", .example_skybox⟩,
  ⟨"square", .example_square⟩,
  ⟨"stencil_buffer", .example_stencil_buffer⟩,
  ⟨"terrain_mesh", .example_terrain_mesh⟩,
  ⟨"text_overlay", .example_text_overlay⟩,
  ⟨"texture_3d", .example_texture_3d⟩,
  ⟨"texture_mipmap_gen", .example_texture_mipmap_gen⟩,
  ⟨"textured_cube", .example_textured_cube⟩,
  ⟨"textured_quad", .example_textured_quad⟩,
  ⟨"triangle", .example_triangle⟩,
  ⟨"two_cubes", .example_two_cubes⟩,
  ⟨"video_uploading", .example_video_uploading⟩,
  ⟨"wireframe_vertex_pulling", .example_wireframe_vertex_pulling⟩]

/-- `get_number_of_examples()`: `ARRAY_SIZE(g_example_cases)`. -/
def get_number_of_examples : Nat := g_example_cases.length

/-- `get_example_by_name()`: linear scan with `strcmp`, returning a pointer to
the first entry whose name matches, or NULL (here: `none`) when no entry
matches. -/
def get_example_by_name (example_name : String) : Option examplecase_t :=
  g_example_cases.find? (fun e => e.example_name == example_name)

end examples_c

/-! ## `textured_quad.c` : quad geometry buffer sizes -/

namespace textured_quad_c

/-- Byte size of a C `uint16_t`. -/
def sizeof_uint16 : Nat := 2

/-- Byte size of a C `uint32_t`. -/
def sizeof_uint32 : Nat := 4

/-- Byte size of a C `float`. -/
def sizeof_float : Nat := 4

/-- `vertex_t` of `textured_quad.c`: `vec3 pos; vec2 uv; vec3 normal` —
eight floats. -/
def sizeof_vertex_t : Nat := (3 + 2 + 3) * sizeof_float

/-- `index_buffer` of `generate_quad`: `static const uint16_t
index_buffer[6] = {0, 1, 2, 2, 3, 0}`. -/
def index_buffer : List Nat := [0, 1, 2, 2, 3, 0]

/-- `indices.count = ARRAY_SIZE(index_buffer)`. -/
def indices_count : Nat := index_buffer.length

/-- `index_buffer_size = indices.count * sizeof(uint32_t)` — the byte size
actually passed to `wgpu_create_buffer_from_data` for the index buffer in
`generate_quad` (note: `sizeof(uint32_t)`, not `sizeof(uint16_t)`). -/
def index_buffer_size : Nat := indices_count * sizeof_uint32

/-- The byte size of the source array `index_buffer`, whose declared element
type is `uint16_t`. -/
def index_buffer_array_bytes : Nat := indices_count * sizeof_uint16

/-- The index format the buffer is later bound with in
`build_command_buffer`: `WGPUIndexFormat_Uint16`. -/
inductive IndexFormat
  | uint16
  | uint32
  deriving DecidableEq, Repr

/-- `wgpuRenderPassEncoderSetIndexBuffer(..., WGPUIndexFormat_Uint16, ...)`. -/
def bound_index_format : IndexFormat := IndexFormat.uint16

end textured_quad_c

/-! ## `reversed_z.c` : constants, enums, descriptor tables, frame build -/

namespace reversed_z_c

open WGPU

/-- `DEFAULT_CANVAS_WIDTH`. -/
def default_canvas_width : Nat := 600

/-- `DEFAULT_CANVAS_HEIGHT`. -/
def default_canvas_height : Nat := 600

/-- `viewport_width = default_canvas_width / 2`. -/
def viewport_width : Nat := default_canvas_width / 2

/-- `X_COUNT`. -/
def x_count : Nat := 1

/-- `Y_COUNT`. -/
def y_count : Nat := 5

/-- `NUM_INSTANCES = X_COUNT * Y_COUNT`. -/
def num_instances : Nat := x_count * y_count

/-- `sizeof(mat4)` for cglm's `mat4` (16 floats of 4 bytes). -/
def sizeof_mat4 : Nat := 64

/-- `MATRIX_FLOAT_COUNT sizeof(mat4)` — the macro expands to the byte size. -/
def matrix_float_count : Nat := sizeof_mat4

/-- `matrix_stride = 4 * matrix_float_count`. -/
def matrix_stride : Nat := 4 * matrix_float_count

/-- `uniform_buffer_size = num_instances * matrix_stride`. -/
def uniform_buffer_size : Nat := num_instances * matrix_stride

/-- `geometry_draw_count = 6 * 2`. -/
def geometry_draw_count : Nat := 6 * 2

/-- `render_mode_enum`. -/
inductive render_mode_enum
  | Color
  | Precision_Error
  | Depth_Texture_Quad
  deriving DecidableEq, Repr

/-- `depth_buffer_mode_enum`. -/
inductive depth_buffer_mode_enum
  | Default
  | Reversed
  deriving DecidableEq, Repr

/-- `depth_buffer_modes[2]`. -/
def depth_buffer_modes : Fin 2 → depth_buffer_mode_enum :=
  ![depth_buffer_mode_enum.Default, depth_buffer_mode_enum.Reversed]

/-- `depth_compare_funcs[2] = {Less, Greater}`. -/
def depth_compare_funcs : Fin 2 → CompareFunction :=
  ![CompareFunction.less, CompareFunction.greater]

/-- `depth_load_values[2] = {1.0f, 0.0f}`. -/
def depth_load_values : Fin 2 → ℚ := ![1, 0]

/-- The texture views this example attaches to passes. -/
inductive TextureView
  | depth_texture_view
  | default_depth_texture_view
  | swap_chain_frame_buffer
  deriving DecidableEq, Repr

/-- `WGPURenderPassColorAttachmentDescriptor` (the fields this example sets;
`view` is NULL until the render loop patches it). -/
structure ColorAttachment where
  view : Option TextureView
  loadOp : LoadOp
  storeOp : StoreOp
  clearColor : Color
  deriving DecidableEq, Repr

/-- `WGPURenderPassDepthStencilAttachmentDescriptor`. -/
structure DepthStencilAttachment where
  view : TextureView
  depthLoadOp : LoadOp
  depthStoreOp : StoreOp
  clearDepth : ℚ
  stencilLoadOp : LoadOp
  stencilStoreOp : StoreOp
  clearStencil : Nat
  deriving DecidableEq, Repr

/-- The static render-pass descriptor tables of `reversed_z.c`, bundled as one
record (the C keeps them as module statics; Lean threads them explicitly). -/
structure DescriptorState where
  dppd_rp_ds_att_descriptor : DepthStencilAttachment
  dpd_rp_color_att_descriptors : Fin 2 → ColorAttachment
  dpd_rp_ds_att_descriptors : Fin 2 → DepthStencilAttachment
  tqd_rp_color_att_descriptors : Fin 2 → ColorAttachment
  deriving DecidableEq

/-- `prepare_depth_pre_pass_descriptor()`: the depth/stencil attachment of the
depth pre-pass. -/
def dppd_rp_ds_att_descriptor_setup : DepthStencilAttachment :=
  { view := TextureView.depth_texture_view
    depthLoadOp := LoadOp.clear
    depthStoreOp := StoreOp.store
    clearDepth := 1
    stencilLoadOp := LoadOp.clear
    stencilStoreOp := StoreOp.store
    clearStencil := 0 }

/-- `prepare_draw_pass_descriptors()`: color attachments; index 0 is the
"clear" variant, index 1 the "load" variant (unspecified fields of the C
compound literal are zero-initialized: store op code 0 = Store, clear color
zeros). -/
def dpd_rp_color_att_descriptors_setup : Fin 2 → ColorAttachment :=
  ![{ view := none
      loadOp := LoadOp.clear
      storeOp := StoreOp.store
      clearColor := { r := 0, g := 0, b := 1/2, a := 1 } },
    { view := none
      loadOp := LoadOp.load
      storeOp := StoreOp.store
      clearColor := { r := 0, g := 0, b := 0, a := 0 } }]

/-- `prepare_draw_pass_descriptors()`: depth/stencil attachments. -/
def dpd_rp_ds_att_descriptors_setup : Fin 2 → DepthStencilAttachment :=
  ![{ view := TextureView.default_depth_texture_view
      depthLoadOp := LoadOp.clear
      depthStoreOp := StoreOp.store
      clearDepth := 1
      stencilLoadOp := LoadOp.clear
      stencilStoreOp := StoreOp.store
      clearStencil := 0 },
    { view := TextureView.default_depth_texture_view
      depthLoadOp := LoadOp.load
      depthStoreOp := StoreOp.store
      clearDepth := 1
      stencilLoadOp := LoadOp.clear
      stencilStoreOp := StoreOp.store
      clearStencil := 0 }]

/-- `prepare_texture_quad_pass_descriptors()`: color attachments. -/
def tqd_rp_color_att_descriptors_setup : Fin 2 → ColorAttachment :=
  ![{ view := none
      loadOp := LoadOp.clear
      storeOp := StoreOp.store
      clearColor := { r := 0, g := 0, b := 1/2, a := 1 } },
    { view := none
      loadOp := LoadOp.load
      storeOp := StoreOp.store
      clearColor := { r := 0, g := 0, b := 0, a := 0 } }]

/-- The descriptor tables as `example_initialize` leaves them (the three
`prepare_*_descriptor*` calls). -/
def descriptor_setup_state : DescriptorState :=
  { dppd_rp_ds_att_descriptor := dppd_rp_ds_att_descriptor_setup
    dpd_rp_color_att_descriptors := dpd_rp_color_att_descriptors_setup
    dpd_rp_ds_att_descriptors := dpd_rp_ds_att_descriptors_setup
    tqd_rp_color_att_descriptors := tqd_rp_color_att_descriptors_setup }

/-- The four kinds of render pass `build_command_buffer` records. -/
inductive PassKind
  | color_pass
  | depth_pre_pass
  | precision_error_pass
  | depth_texture_quad_pass
  deriving DecidableEq, Repr

/-- One recorded render pass: its kind, depth-buffer variant `m`, whether it
binds `depth_texture_bind_group` (the group sampling the depth texture), and
the viewport set by `wgpuRenderPassEncoderSetViewport` (the float viewport
arguments are exact small integers in this example, recorded as naturals). -/
structure PassRecord where
  kind : PassKind
  m : Fin 2
  binds_depth_texture_bind_group : Bool
  viewport_x : Nat
  viewport_w : Nat
  viewport_h : Nat
  deriving DecidableEq, Repr

/-- The `colorPass` body of `build_command_buffer` (RenderMode_Color branch,
one loop iteration): patch the swap-chain view and the depth load op, then
record the pass. -/
def color_pass_step (s : DescriptorState) (m : Fin 2) :
    DescriptorState × PassRecord :=
  let s1 : DescriptorState :=
    { s with
      dpd_rp_color_att_descriptors :=
        Function.update s.dpd_rp_color_att_descriptors m
          { s.dpd_rp_color_att_descriptors m with
            view := some TextureView.swap_chain_frame_buffer }
      dpd_rp_ds_att_descriptors :=
        Function.update s.dpd_rp_ds_att_descriptors m
          { s.dpd_rp_ds_att_descriptors m with
            depthLoadOp := loadOpOfFloat (depth_load_values m) } }
  (s1,
   { kind := PassKind.color_pass
     m := m
     binds_depth_texture_bind_group := false
     viewport_x := viewport_width * (m : ℕ)
     viewport_w := viewport_width
     viewport_h := default_canvas_height })

/-- The `depthPrePass` block (shared by the Precision_Error and
Depth_Texture_Quad branches): patch `dppd_rp_ds_att_descriptor.depthLoadOp`,
then record the pass. -/
def depth_pre_pass_step (s : DescriptorState) (m : Fin 2) :
    DescriptorState × PassRecord :=
  let s1 : DescriptorState :=
    { s with
      dppd_rp_ds_att_descriptor :=
        { s.dppd_rp_ds_att_descriptor with
          depthLoadOp := loadOpOfFloat (depth_load_values m) } }
  (s1,
   { kind := PassKind.depth_pre_pass
     m := m
     binds_depth_texture_bind_group := false
     viewport_x := viewport_width * (m : ℕ)
     viewport_w := viewport_width
     viewport_h := default_canvas_height })

/-- The `precisionErrorPass` block: patch the swap-chain view and the depth
load op of the draw-pass descriptor, then record the pass (it binds
`depth_texture_bind_group` at group index 1). -/
def precision_error_pass_step (s : DescriptorState) (m : Fin 2) :
    DescriptorState × PassRecord :=
  let s1 : DescriptorState :=
    { s with
      dpd_rp_color_att_descriptors :=
        Function.update s.dpd_rp_color_att_descriptors m
          { s.dpd_rp_color_att_descriptors m with
            view := some TextureView.swap_chain_frame_buffer }
      dpd_rp_ds_att_descriptors :=
        Function.update s.dpd_rp_ds_att_descriptors m
          { s.dpd_rp_ds_att_descriptors m with
            depthLoadOp := loadOpOfFloat (depth_load_values m) } }
  (s1,
   { kind := PassKind.precision_error_pass
     m := m
     binds_depth_texture_bind_group := true
     viewport_x := viewport_width * (m : ℕ)
     viewport_w := viewport_width
     viewport_h := default_canvas_height })

/-- The `depthTextureQuadPass` block: patch the swap-chain view of the
texture-quad descriptor, then record the pass (it binds
`depth_texture_bind_group` at group index 0). -/
def depth_texture_quad_pass_step (s : DescriptorState) (m : Fin 2) :
    DescriptorState × PassRecord :=
  let s1 : DescriptorState :=
    { s with
      tqd_rp_color_att_descriptors :=
        Function.update s.tqd_rp_color_att_descriptors m
          { s.tqd_rp_color_att_descriptors m with
            view := some TextureView.swap_chain_frame_buffer } }
  (s1,
   { kind := PassKind.depth_texture_quad_pass
     m := m
     binds_depth_texture_bind_group := true
     viewport_x := viewport_width * (m : ℕ)
     viewport_w := viewport_width
     viewport_h := default_canvas_height })

/-- `build_command_buffer()`: branch on the render mode and loop
`m = 0 .. ARRAY_SIZE(depth_buffer_modes) - 1`, recording passes in order and
mutating the descriptor tables as the source does.  Returns the final
descriptor state and the ordered list of recorded passes (the command
buffer's contents). -/
def build_command_buffer (current_render_mode : render_mode_enum)
    (s : DescriptorState) : DescriptorState × List PassRecord :=
  match current_render_mode with
  | render_mode_enum.Color =>
    (List.finRange 2).foldl
      (fun acc m =>
        let sp := color_pass_step acc.1 m
        (sp.1, acc.2 ++ [sp.2]))
      (s, [])
  | render_mode_enum.Precision_Error =>
    (List.finRange 2).foldl
      (fun acc m =>
        let sp := depth_pre_pass_step acc.1 m
        let sq := precision_error_pass_step sp.1 m
        (sq.1, acc.2 ++ [sp.2, sq.2]))
      (s, [])
  | render_mode_enum.Depth_Texture_Quad =>
    (List.finRange 2).foldl
      (fun acc m =>
        let sp := depth_pre_pass_step acc.1 m
        let sq := depth_texture_quad_pass_step sp.1 m
        (sq.1, acc.2 ++ [sp.2, sq.2]))
      (s, [])

/-- `submit_info`: the count and the command buffers handed to the queue
(a command buffer is modelled by its recorded pass list; `none` would be a
NULL buffer). -/
structure submit_info_t where
  command_buffer_count : Nat
  command_buffers : List (Option (List PassRecord))
  deriving DecidableEq, Repr

/-- `example_draw()`: build one command buffer, place it in slot 0 with
`command_buffer_count = 1`, submit, and return 0. -/
def example_draw (current_render_mode : render_mode_enum)
    (s : DescriptorState) : Nat × DescriptorState × submit_info_t :=
  let built := build_command_buffer current_render_mode s
  (0, built.1,
   { command_buffer_count := 1, command_buffers := [some built.2] })

/-- Observable per-tick events of `example_render` in program order. -/
inductive FrameEvent
  | begin_render_pass (p : PassRecord)
  | queue_submit (count : Nat)
  | write_uniform_buffer
  deriving DecidableEq, Repr

/-- `example_render()`: returns 1 immediately when not prepared; otherwise
runs `example_draw` (encode all passes, then submit), and only afterwards,
when not paused, `update_uniform_buffers` (host matrix recompute plus
`wgpu_queue_write_buffer` on the uniform buffer).  Result: the C return
value, the final descriptor state, and the event trace in program order. -/
def example_render (prepared : Bool) (paused : Bool)
    (current_render_mode : render_mode_enum) (s : DescriptorState) :
    Nat × DescriptorState × List FrameEvent :=
  if prepared then
    let built := build_command_buffer current_render_mode s
    let trace := built.2.map FrameEvent.begin_render_pass ++
      [FrameEvent.queue_submit 1]
    if paused then
      (0, built.1, trace)
    else
      (0, built.1, trace ++ [FrameEvent.write_uniform_buffer])
  else
    (1, s, [])

end reversed_z_c

namespace reversed_z_c

open WGPU

/-- `WGPUTextureFormat` values this example mentions. -/
inductive TextureFormat
  | Depth32Float
  | swap_chain_format
  deriving DecidableEq, Repr

/-- `depth_buffer_format = WGPUTextureFormat_Depth32Float`. -/
def depth_buffer_format : TextureFormat := TextureFormat.Depth32Float

/-- `WGPUFrontFace`. -/
inductive FrontFace
  | CCW
  deriving DecidableEq, Repr

/-- `WGPUCullMode` members used here. -/
inductive CullMode
  | back
  deriving DecidableEq, Repr

/-- `WGPUPrimitiveTopology` members used here. -/
inductive PrimitiveTopology
  | triangle_list
  deriving DecidableEq, Repr

/-- `WGPUVertexFormat` members used here. -/
inductive VertexFormat
  | Float32x4
  deriving DecidableEq, Repr

/-- The depth/stencil state descriptor fields this example sets. -/
structure DepthStencilStateDescriptor where
  format : TextureFormat
  depthWriteEnabled : Bool
  depthCompare : CompareFunction
  deriving DecidableEq, Repr

/-- The fixed-function and shader-stage bundle of a
`WGPURenderPipelineDescriptor` as this example fills it in. -/
structure RenderPipelineDescriptor where
  vertex_shader_file : String
  fragment_shader_file : String
  front_face : FrontFace
  cull_mode : CullMode
  primitive_topology : PrimitiveTopology
  color_state_count : Nat
  color_state_format : Option TextureFormat
  depth_stencil_state : Option DepthStencilStateDescriptor
  vertex_attributes : List (Nat × VertexFormat × Nat)
  sample_count : Nat
  sample_mask : Nat
  alpha_to_coverage_enabled : Bool
  deriving DecidableEq, Repr

/-- `geometry_position_offset`. -/
def geometry_position_offset : Nat := 0

/-- `geometry_color_offset = 4 * 4`. -/
def geometry_color_offset : Nat := 4 * 4

/-- `prepare_depth_pre_pass_render_pipeline()`: the two pipelines of
`depth_pre_pass_pipelines[2]`.  The shared descriptor base is built once; the
only thing changed between the two `wgpuDeviceCreateRenderPipeline` calls is
`depth_stencil_state_desc.depthCompare = depth_compare_funcs[mode]`. -/
def depth_pre_pass_pipelines (mode : Fin 2) : RenderPipelineDescriptor :=
  { vertex_shader_file := "shaders/reversed_z/depth_pre_pass.vert.spv"
    fragment_shader_file := "shaders/reversed_z/depth_pre_pass.frag.spv"
    front_face := FrontFace.CCW
    cull_mode := CullMode.back
    primitive_topology := PrimitiveTopology.triangle_list
    color_state_count := 0
    color_state_format := none
    depth_stencil_state := some
      { format := depth_buffer_format
        depthWriteEnabled := true
        depthCompare := depth_compare_funcs mode }
    vertex_attributes := [(0, VertexFormat.Float32x4, geometry_position_offset)]
    sample_count := 1
    sample_mask := 0xFFFFFFFF
    alpha_to_coverage_enabled := false }

/-- `prepare_precision_pass_render_pipeline()`: the two pipelines of
`precision_pass_pipelines[2]`, again differing between the two creations only
in `depthCompare = depth_compare_funcs[mode]`. -/
def precision_pass_pipelines (mode : Fin 2) : RenderPipelineDescriptor :=
  { vertex_shader_file := "shaders/reversed_z/precision_error_pass.vert.spv"
    fragment_shader_file := "shaders/reversed_z/precision_error_pass.frag.spv"
    front_face := FrontFace.CCW
    cull_mode := CullMode.back
    primitive_topology := PrimitiveTopology.triangle_list
    color_state_count := 1
    color_state_format := some TextureFormat.swap_chain_format
    depth_stencil_state := some
      { format := depth_buffer_format
        depthWriteEnabled := true
        depthCompare := depth_compare_funcs mode }
    vertex_attributes := [(0, VertexFormat.Float32x4, geometry_position_offset)]
    sample_count := 1
    sample_mask := 0xFFFFFFFF
    alpha_to_coverage_enabled := false }

/-- `prepare_color_pass_render_pipeline()`: the two pipelines of
`color_pass_pipelines[2]`, differing between the two creations only in
`depthCompare = depth_compare_funcs[mode]`. -/
def color_pass_pipelines (mode : Fin 2) : RenderPipelineDescriptor :=
  { vertex_shader_file := "shaders/reversed_z/color_pass.vert.spv"
    fragment_shader_file := "shaders/reversed_z/color_pass.frag.spv"
    front_face := FrontFace.CCW
    cull_mode := CullMode.back
    primitive_topology := PrimitiveTopology.triangle_list
    color_state_count := 1
    color_state_format := some TextureFormat.swap_chain_format
    depth_stencil_state := some
      { format := depth_buffer_format
        depthWriteEnabled := true
        depthCompare := depth_compare_funcs mode }
    vertex_attributes := [(0, VertexFormat.Float32x4, geometry_position_offset),
      (1, VertexFormat.Float32x4, geometry_color_offset)]
    sample_count := 1
    sample_mask := 0xFFFFFFFF
    alpha_to_coverage_enabled := false }

/-- Overwrite a pipeline descriptor's depth-compare function, leaving every
other field unchanged (used to state "the two pipelines differ only in the
depth-compare function"). -/
def RenderPipelineDescriptor.withDepthCompare (p : RenderPipelineDescriptor)
    (c : CompareFunction) : RenderPipelineDescriptor :=
  { p with depth_stencil_state :=
      p.depth_stencil_state.map (fun d => { d with depthCompare := c }) }

/-- The GPU buffers of the reversed-Z example that its bind groups can
reference. -/
inductive BufferHandle
  | uniform_buffer
  | camera_matrix_buffer
  | camera_matrix_reversed_depth_buffer
  deriving DecidableEq, Repr

/-- `WGPUBindGroupEntry` as used in `setup_uniform_bind_groups`. -/
structure BindGroupEntry where
  binding : Nat
  buffer : BufferHandle
  size : Nat
  deriving DecidableEq, Repr

/-- A created bind group: the pipeline whose group-0 layout it was created
from (`depth_pre_pass_pipelines[mode]`), and its entries. -/
structure BindGroupValue where
  layout_from_pipeline_mode : Fin 2
  entries : List BindGroupEntry
  deriving DecidableEq, Repr

/-- `setup_uniform_bind_groups()`: the first block stores into
`uniform_bind_groups[0]` (literal index 0) a group with `uniform_buffer` at
binding 0 and `camera_matrix_buffer` at binding 1; the second block, with
`mode = DepthBufferMode_Reversed`, stores into `uniform_bind_groups[mode]`
(index 1) a group with `uniform_buffer` at binding 0 and
`camera_matrix_reversed_depth_buffer` at binding 1. -/
def setup_uniform_bind_groups (g : Fin 2 → Option BindGroupValue) :
    Fin 2 → Option BindGroupValue :=
  let g1 := Function.update g 0 (some
    { layout_from_pipeline_mode := 0
      entries := [
        { binding := 0, buffer := BufferHandle.uniform_buffer
          size := uniform_buffer_size },
        { binding := 1, buffer := BufferHandle.camera_matrix_buffer
          size := sizeof_mat4 }] })
  Function.update g1 1 (some
    { layout_from_pipeline_mode := 1
      entries := [
        { binding := 0, buffer := BufferHandle.uniform_buffer
          size := uniform_buffer_size },
        { binding := 1, buffer := BufferHandle.camera_matrix_reversed_depth_buffer
          size := sizeof_mat4 }] })

/-- `uniform_bind_groups[2] = {0}`: both slots NULL before setup. -/
def uniform_bind_groups_initial : Fin 2 → Option BindGroupValue := fun _ => none

/-- The columns of `depth_range_remap_matrix` as written in the C initializer
(cglm's `mat4` is column-major: the initializer's four rows are the four
columns of the matrix). -/
def depth_range_remap_matrix_cols : Fin 4 → Fin 4 → ℚ :=
  ![![1, 0, 0, 0],
    ![0, 1, 0, 0],
    ![0, 0, -1, 0],
    ![0, 0, 1, 1]]

/-- `depth_range_remap_matrix` as a mathematical matrix: entry (row, col) is
the initializer's `[col][row]` element.  `glm_mat4_mul(A, B, dest)` is the
ordinary matrix product `dest = A * B` in this convention. -/
def depth_range_remap_matrix : Matrix (Fin 4) (Fin 4) ℚ :=
  Matrix.of fun r c => depth_range_remap_matrix_cols c r

end reversed_z_c

/-! ## `textured_quad.c` and `compute_particles.c` : per-tick render entry -/

namespace textured_quad_c

open WGPU

/-- Observable per-tick events of the textured-quad example. -/
inductive FrameEvent
  | begin_render_pass
  | queue_submit (count : Nat)
  deriving DecidableEq, Repr

/-- The module state `example_render` can touch: the color attachment's
patched view (the swap-chain frame buffer) modelled as a flag. -/
structure QuadState where
  color_att_view_patched : Bool
  deriving DecidableEq, Repr

/-- `example_draw()`: patch the color attachment view, build the single
render pass, submit one command buffer, return 0. -/
def example_draw (s : QuadState) : Nat × QuadState × List FrameEvent :=
  (0, { s with color_att_view_patched := true },
   [FrameEvent.begin_render_pass, FrameEvent.queue_submit 1])

/-- `example_render()`: returns 1 and does nothing when `prepared` is false;
otherwise delegates to `example_draw`. -/
def example_render (prepared : Bool) (s : QuadState) :
    Nat × QuadState × List FrameEvent :=
  if prepared then example_draw s else (1, s, [])

end textured_quad_c

namespace compute_particles_c

/-- Observable per-tick events of the compute-particles example. -/
inductive FrameEvent
  | begin_compute_pass
  | begin_render_pass
  | queue_submit (count : Nat)
  | write_uniform_buffer
  deriving DecidableEq, Repr

/-- The module state `example_render` reads and writes: the animation timer,
its start-up countdown, and the cursor-attachment flag. -/
structure ParticleState where
  timer : ℚ
  animStart : ℚ
  attach_to_cursor : Bool
  deriving DecidableEq, Repr

/-- The timer-update block of `example_render` (runs only when
`attach_to_cursor` is false): count `animStart` down, then advance `timer`
and wrap it at 1. -/
def update_timers (frame_timer : ℚ) (s : ParticleState) : ParticleState :=
  if s.attach_to_cursor then s
  else if 0 < s.animStart then
    { s with animStart := s.animStart - frame_timer * 5 }
  else
    let t := s.timer + frame_timer * (4 / 100)
    { s with timer := if 1 < t then 0 else t }

/-- `example_draw()`: one compute pass then one render pass, one command
buffer submitted. -/
def example_draw (s : ParticleState) : Nat × ParticleState × List FrameEvent :=
  (0, s,
   [FrameEvent.begin_compute_pass, FrameEvent.begin_render_pass,
    FrameEvent.queue_submit 1])

/-- `example_render()`: returns 1 and does nothing when `prepared` is false;
otherwise draw, update the timers, then `update_uniform_buffers` (a
host-to-device write of the compute UBO). -/
def example_render (prepared : Bool) (frame_timer : ℚ) (s : ParticleState) :
    Nat × ParticleState × List FrameEvent :=
  if prepared then
    let drawn := example_draw s
    let s1 := update_timers frame_timer drawn.2.1
    (drawn.1, s1, drawn.2.2 ++ [FrameEvent.write_uniform_buffer])
  else
    (1, s, [])

end compute_particles_c

/-! ## Helper definitions for the statements -/

namespace reversed_z_c

open WGPU

/-- The fields of a color attachment other than `view` (the ones the spec
calls frame-invariant). -/
def ColorAttachment.setup_fixed_fields (c : ColorAttachment) :
    LoadOp × StoreOp × Color :=
  (c.loadOp, c.storeOp, c.clearColor)

/-- The fields of a depth/stencil attachment other than `depthLoadOp`. -/
def DepthStencilAttachment.setup_fixed_fields (d : DepthStencilAttachment) :
    TextureView × StoreOp × ℚ × LoadOp × StoreOp × Nat :=
  (d.view, d.depthStoreOp, d.clearDepth, d.stencilLoadOp, d.stencilStoreOp,
   d.clearStencil)

/-- Passes of one frame are ordered by depth-buffer variant index. -/
abbrev variant_ordered (ps : List PassRecord) : Prop :=
  List.Pairwise (fun a b => a.m ≤ b.m) ps

/-- Every pass that binds `depth_texture_bind_group` (and hence samples the
depth texture) is preceded by a depth pre-pass of the same variant. -/
abbrev prepass_precedes_consumers (ps : List PassRecord) : Prop :=
  ∀ i : Fin ps.length, (ps.get i).binds_depth_texture_bind_group = true →
    ∃ j : Fin ps.length, (j : Nat) < (i : Nat) ∧
      (ps.get j).kind = PassKind.depth_pre_pass ∧ (ps.get j).m = (ps.get i).m

/-- Recognizer for the submit event. -/
def FrameEvent.is_queue_submit : FrameEvent → Bool
  | FrameEvent.queue_submit _ => true
  | _ => false

/-- Recognizer for the uniform-buffer write event. -/
def FrameEvent.is_write_uniform : FrameEvent → Bool
  | FrameEvent.write_uniform_buffer => true
  | _ => false

/-- The event trace of one prepared, non-paused `example_render` tick. -/
def nonpaused_trace (mode : render_mode_enum) (s : DescriptorState) :
    List FrameEvent :=
  (example_render true false mode s).2.2

end reversed_z_c

/-! ## Shared lemmas -/

namespace reversed_z_c

/-- The pass list recorded by `build_command_buffer` does not depend on the
descriptor state it starts from (the descriptors only carry attachments, not
the pass structure). -/
theorem build_command_buffer_passes_const (mode : render_mode_enum)
    (s : DescriptorState) :
    (build_command_buffer mode s).2 =
      (build_command_buffer mode descriptor_setup_state).2 := by
  cases mode <;> rfl

/-- The event trace of a prepared, non-paused tick does not depend on the
descriptor state. -/
theorem example_render_trace_const (mode : render_mode_enum)
    (s : DescriptorState) :
    (example_render true false mode s).2.2 =
      (example_render true false mode descriptor_setup_state).2.2 := by
  cases mode <;> rfl

/-- The depth-range remap matrix is an involution: multiplied by itself it
gives the identity. -/
theorem depth_range_remap_matrix_mul_self :
    depth_range_remap_matrix * depth_range_remap_matrix = 1 := by
  ext i j
  fin_cases i <;> fin_cases j <;>
    simp [depth_range_remap_matrix, depth_range_remap_matrix_cols,
      Matrix.mul_apply, Fin.sum_univ_four, Matrix.one_apply,
      Matrix.vecHead, Matrix.vecTail]

end reversed_z_c

/-! ## Claim theorems -/

/-- C1 (counterexample): the claim that only the color attachment's `view`
field is mutated between setup and command-buffer construction is false: one
Color-mode frame from the setup state overwrites
`dpd_rp_ds_att_descriptors[0].depthLoadOp` (a depth/stencil load-op field)
with a value different from its setup value. -/
theorem C1_only_view_mutated_counterexample :
    ((reversed_z_c.build_command_buffer reversed_z_c.render_mode_enum.Color
        reversed_z_c.descriptor_setup_state).1.dpd_rp_ds_att_descriptors
        0).depthLoadOp ≠
      (reversed_z_c.descriptor_setup_state.dpd_rp_ds_att_descriptors
        0).depthLoadOp := by
  decide

/-- C1 (amended): in every render mode, building a frame's command buffer
from any descriptor state mutates only the color attachments' `view` fields
and the depth/stencil attachments' `depthLoadOp` fields; every other
descriptor field (load/store ops of color attachments, clear values,
depth/stencil view, store ops, stencil ops) keeps the value it had — hence,
by induction from the setup state, its setup value. -/
theorem C1_frame_invariant_fields_amended
    (mode : reversed_z_c.render_mode_enum)
    (s : reversed_z_c.DescriptorState) (m : Fin 2) :
    ((reversed_z_c.build_command_buffer mode
        s).1.dppd_rp_ds_att_descriptor).setup_fixed_fields =
        s.dppd_rp_ds_att_descriptor.setup_fixed_fields ∧
      ((reversed_z_c.build_command_buffer mode
          s).1.dpd_rp_color_att_descriptors m).setup_fixed_fields =
        (s.dpd_rp_color_att_descriptors m).setup_fixed_fields ∧
      ((reversed_z_c.build_command_buffer mode
          s).1.dpd_rp_ds_att_descriptors m).setup_fixed_fields =
        (s.dpd_rp_ds_att_descriptors m).setup_fixed_fields ∧
      ((reversed_z_c.build_command_buffer mode
          s).1.tqd_rp_color_att_descriptors m).setup_fixed_fields =
        (s.tqd_rp_color_att_descriptors m).setup_fixed_fields := by
  cases mode <;> fin_cases m <;>
    simp [reversed_z_c.build_command_buffer, reversed_z_c.color_pass_step,
      reversed_z_c.depth_pre_pass_step,
      reversed_z_c.precision_error_pass_step,
      reversed_z_c.depth_texture_quad_pass_step, Function.update,
      reversed_z_c.ColorAttachment.setup_fixed_fields,
      reversed_z_c.DepthStencilAttachment.setup_fixed_fields,
      List.finRange, List.foldl]

/-- C1 (witness for the amended theorem): the amended statement evaluated at
the Color mode, the setup state and variant 0. -/
theorem C1_frame_invariant_fields_amended_witness :
    ((reversed_z_c.build_command_buffer reversed_z_c.render_mode_enum.Color
        reversed_z_c.descriptor_setup_state).1.dppd_rp_ds_att_descriptor).setup_fixed_fields =
        reversed_z_c.descriptor_setup_state.dppd_rp_ds_att_descriptor.setup_fixed_fields ∧
      ((reversed_z_c.build_command_buffer reversed_z_c.render_mode_enum.Color
          reversed_z_c.descriptor_setup_state).1.dpd_rp_color_att_descriptors
          0).setup_fixed_fields =
        (reversed_z_c.descriptor_setup_state.dpd_rp_color_att_descriptors
          0).setup_fixed_fields ∧
      ((reversed_z_c.build_command_buffer reversed_z_c.render_mode_enum.Color
          reversed_z_c.descriptor_setup_state).1.dpd_rp_ds_att_descriptors
          0).setup_fixed_fields =
        (reversed_z_c.descriptor_setup_state.dpd_rp_ds_att_descriptors
          0).setup_fixed_fields ∧
      ((reversed_z_c.build_command_buffer reversed_z_c.render_mode_enum.Color
          reversed_z_c.descriptor_setup_state).1.tqd_rp_color_att_descriptors
          0).setup_fixed_fields =
        (reversed_z_c.descriptor_setup_state.tqd_rp_color_att_descriptors
          0).setup_fixed_fields :=
  C1_frame_invariant_fields_amended reversed_z_c.render_mode_enum.Color
    reversed_z_c.descriptor_setup_state 0

/-- C2 (counterexample): on a prepared, non-paused Color-mode tick from the
setup state, the uniform-buffer write does not precede the queue submit: no
index of a write event is strictly below an index of a submit event in the
tick's trace (the write happens after the draw). -/
theorem C2_write_before_submit_counterexample :
    ¬ ∃ i j : Fin (reversed_z_c.nonpaused_trace
        reversed_z_c.render_mode_enum.Color
        reversed_z_c.descriptor_setup_state).length,
      (i : Nat) < (j : Nat) ∧
        ((reversed_z_c.nonpaused_trace reversed_z_c.render_mode_enum.Color
            reversed_z_c.descriptor_setup_state).get i).is_write_uniform =
          true ∧
        ((reversed_z_c.nonpaused_trace reversed_z_c.render_mode_enum.Color
            reversed_z_c.descriptor_setup_state).get j).is_queue_submit =
          true := by
  decide

/-- C2 (amended): on every prepared, non-paused tick, in every render mode
and from every descriptor state, the uniform recompute-and-write is the last
event of the tick: it happens after all render passes are encoded and after
the command buffer is submitted (the write thus feeds the next frame's
draw, not the current one). -/
theorem C2_write_follows_submit_amended (mode : reversed_z_c.render_mode_enum)
    (s : reversed_z_c.DescriptorState) :
    (reversed_z_c.nonpaused_trace mode s).findIdx
        reversed_z_c.FrameEvent.is_write_uniform <
      (reversed_z_c.nonpaused_trace mode s).length ∧
    (reversed_z_c.nonpaused_trace mode s).findIdx
        reversed_z_c.FrameEvent.is_write_uniform =
      (reversed_z_c.nonpaused_trace mode s).length - 1 ∧
    (reversed_z_c.nonpaused_trace mode s).findIdx
        reversed_z_c.FrameEvent.is_queue_submit <
      (reversed_z_c.nonpaused_trace mode s).findIdx
        reversed_z_c.FrameEvent.is_write_uniform := by
  unfold reversed_z_c.nonpaused_trace
  rw [reversed_z_c.example_render_trace_const mode s]
  cases mode <;> decide

/-- C2 (witness for the amended theorem): the amended statement evaluated at
the Color mode and the setup state. -/
theorem C2_write_follows_submit_amended_witness :
    (reversed_z_c.nonpaused_trace reversed_z_c.render_mode_enum.Color
        reversed_z_c.descriptor_setup_state).findIdx
        reversed_z_c.FrameEvent.is_write_uniform <
      (reversed_z_c.nonpaused_trace reversed_z_c.render_mode_enum.Color
        reversed_z_c.descriptor_setup_state).length ∧
    (reversed_z_c.nonpaused_trace reversed_z_c.render_mode_enum.Color
        reversed_z_c.descriptor_setup_state).findIdx
        reversed_z_c.FrameEvent.is_write_uniform =
      (reversed_z_c.nonpaused_trace reversed_z_c.render_mode_enum.Color
        reversed_z_c.descriptor_setup_state).length - 1 ∧
    (reversed_z_c.nonpaused_trace reversed_z_c.render_mode_enum.Color
        reversed_z_c.descriptor_setup_state).findIdx
        reversed_z_c.FrameEvent.is_queue_submit <
      (reversed_z_c.nonpaused_trace reversed_z_c.render_mode_enum.Color
        reversed_z_c.descriptor_setup_state).findIdx
        reversed_z_c.FrameEvent.is_write_uniform :=
  C2_write_follows_submit_amended reversed_z_c.render_mode_enum.Color
    reversed_z_c.descriptor_setup_state

/-- C3: the registry finds "triangle" (with `example_triangle` as its
entry-point function), does not find "not-a-real-example" (NULL result),
counts 60 registered entries, and the registered names are pairwise
distinct. -/
theorem C3_registry_lookup_count_nodup :
    examples_c.get_example_by_name "triangle" =
      some ⟨"triangle", examples_c.ExampleFunc.example_triangle⟩ ∧
    examples_c.get_example_by_name "not-a-real-example" = none ∧
    examples_c.get_number_of_examples = 60 ∧
    examples_c.get_number_of_examples = examples_c.g_example_cases.length ∧
    (examples_c.g_example_cases.map
      examples_c.examplecase_t.example_name).Nodup := by
  refine ⟨by decide, by decide, by decide, rfl, by decide⟩

/-- C4: each of the depth-pre-pass, precision-pass, and color-pass pipeline
pairs of the reversed-Z example is built from one fixed-function bundle
instantiated twice: variant 0 (Default) uses depth-compare Less, variant 1
(Reversed) uses Greater, and within each family the two pipelines agree on
every other field (overwriting only the depth-compare reproduces the other
variant exactly). -/
theorem C4_pipeline_pairs_differ_only_in_depth_compare :
    ((reversed_z_c.depth_pre_pass_pipelines 0).depth_stencil_state.map
        reversed_z_c.DepthStencilStateDescriptor.depthCompare =
      some WGPU.CompareFunction.less) ∧
    ((reversed_z_c.depth_pre_pass_pipelines 1).depth_stencil_state.map
        reversed_z_c.DepthStencilStateDescriptor.depthCompare =
      some WGPU.CompareFunction.greater) ∧
    ((reversed_z_c.depth_pre_pass_pipelines 0).withDepthCompare
        WGPU.CompareFunction.greater = reversed_z_c.depth_pre_pass_pipelines 1) ∧
    ((reversed_z_c.depth_pre_pass_pipelines 1).withDepthCompare
        WGPU.CompareFunction.less = reversed_z_c.depth_pre_pass_pipelines 0) ∧
    ((reversed_z_c.precision_pass_pipelines 0).depth_stencil_state.map
        reversed_z_c.DepthStencilStateDescriptor.depthCompare =
      some WGPU.CompareFunction.less) ∧
    ((reversed_z_c.precision_pass_pipelines 1).depth_stencil_state.map
        reversed_z_c.DepthStencilStateDescriptor.depthCompare =
      some WGPU.CompareFunction.greater) ∧
    ((reversed_z_c.precision_pass_pipelines 0).withDepthCompare
        WGPU.CompareFunction.greater = reversed_z_c.precision_pass_pipelines 1) ∧
    ((reversed_z_c.precision_pass_pipelines 1).withDepthCompare
        WGPU.CompareFunction.less = reversed_z_c.precision_pass_pipelines 0) ∧
    ((reversed_z_c.color_pass_pipelines 0).depth_stencil_state.map
        reversed_z_c.DepthStencilStateDescriptor.depthCompare =
      some WGPU.CompareFunction.less) ∧
    ((reversed_z_c.color_pass_pipelines 1).depth_stencil_state.map
        reversed_z_c.DepthStencilStateDescriptor.depthCompare =
      some WGPU.CompareFunction.greater) ∧
    ((reversed_z_c.color_pass_pipelines 0).withDepthCompare
        WGPU.CompareFunction.greater = reversed_z_c.color_pass_pipelines 1) ∧
    ((reversed_z_c.color_pass_pipelines 1).withDepthCompare
        WGPU.CompareFunction.less = reversed_z_c.color_pass_pipelines 0) := by
  decide

/-- C5: the depth-range remap matrix is invertible (it is a unit of the
4x4 matrix ring over the rationals), and remapping any view-projection
matrix and then applying the inverse of the remap returns the original
matrix exactly. -/
theorem C5_depth_range_remap_inverse_roundtrip :
    IsUnit reversed_z_c.depth_range_remap_matrix ∧
    ∀ VP : Matrix (Fin 4) (Fin 4) ℚ,
      reversed_z_c.depth_range_remap_matrix⁻¹ *
        (reversed_z_c.depth_range_remap_matrix * VP) = VP := by
  have hMM := reversed_z_c.depth_range_remap_matrix_mul_self
  have hinv : reversed_z_c.depth_range_remap_matrix⁻¹ =
      reversed_z_c.depth_range_remap_matrix :=
    Matrix.inv_eq_right_inv hMM
  refine ⟨⟨⟨reversed_z_c.depth_range_remap_matrix,
    reversed_z_c.depth_range_remap_matrix, hMM, hMM⟩, rfl⟩, ?_⟩
  intro VP
  rw [hinv, ← Matrix.mul_assoc, hMM, Matrix.one_mul]

/-- C6: in every frame (every render mode, from every descriptor state) the
recorded passes are ordered: every pass of depth-buffer variant 0 precedes
every pass of variant 1, and every pass that samples the depth texture (the
precision-error and depth-texture-quad passes, which bind
`depth_texture_bind_group`) is preceded by a depth pre-pass of the same
variant. -/
theorem C6_pass_order_deterministic (mode : reversed_z_c.render_mode_enum)
    (s : reversed_z_c.DescriptorState) :
    reversed_z_c.variant_ordered
        ((reversed_z_c.build_command_buffer mode s).2) ∧
      reversed_z_c.prepass_precedes_consumers
        ((reversed_z_c.build_command_buffer mode s).2) := by
  rw [reversed_z_c.build_command_buffer_passes_const mode s]
  cases mode <;> decide

/-- C6 (witness): the ordering statement evaluated at the Precision_Error
mode and the setup state. -/
theorem C6_pass_order_deterministic_witness :
    reversed_z_c.variant_ordered
        ((reversed_z_c.build_command_buffer
          reversed_z_c.render_mode_enum.Precision_Error
          reversed_z_c.descriptor_setup_state).2) ∧
      reversed_z_c.prepass_precedes_consumers
        ((reversed_z_c.build_command_buffer
          reversed_z_c.render_mode_enum.Precision_Error
          reversed_z_c.descriptor_setup_state).2) :=
  C6_pass_order_deterministic reversed_z_c.render_mode_enum.Precision_Error
    reversed_z_c.descriptor_setup_state

/-- C7: with the 600x600 canvas constants and render mode Color, one frame
tick records exactly two color passes whose viewports are 300 wide, at
x-origin 0 for variant 0 and x-origin 300 for variant 1, and `example_draw`
submits exactly one command buffer, which is non-null. -/
theorem C7_color_mode_two_viewports_one_submit :
    reversed_z_c.default_canvas_width = 600 ∧
    reversed_z_c.default_canvas_height = 600 ∧
    reversed_z_c.viewport_width = 300 ∧
    (reversed_z_c.build_command_buffer reversed_z_c.render_mode_enum.Color
      reversed_z_c.descriptor_setup_state).2.length = 2 ∧
    ((reversed_z_c.build_command_buffer reversed_z_c.render_mode_enum.Color
      reversed_z_c.descriptor_setup_state).2.map
        reversed_z_c.PassRecord.viewport_x = [0, 300]) ∧
    (∀ p ∈ (reversed_z_c.build_command_buffer
        reversed_z_c.render_mode_enum.Color
        reversed_z_c.descriptor_setup_state).2,
      p.viewport_w = 300 ∧ p.kind = reversed_z_c.PassKind.color_pass) ∧
    (reversed_z_c.example_draw reversed_z_c.render_mode_enum.Color
      reversed_z_c.descriptor_setup_state).2.2.command_buffer_count = 1 ∧
    (reversed_z_c.example_draw reversed_z_c.render_mode_enum.Color
      reversed_z_c.descriptor_setup_state).2.2.command_buffers.length = 1 ∧
    (∀ cb ∈ (reversed_z_c.example_draw reversed_z_c.render_mode_enum.Color
        reversed_z_c.descriptor_setup_state).2.2.command_buffers,
      cb.isSome = true) := by
  decide

/-- C8: after `setup_uniform_bind_groups` runs on the zero-initialized
array, slot 0 holds the Default-variant group (bound to
`camera_matrix_buffer` at binding 1) and slot 1 holds the Reversed-variant
group (bound to `camera_matrix_reversed_depth_buffer` at binding 1); both
slots are populated, the two groups are distinct values (non-aliased), and
neither store overwrote the other. -/
theorem C8_uniform_bind_groups_distinct :
    (reversed_z_c.setup_uniform_bind_groups
        reversed_z_c.uniform_bind_groups_initial) 0 =
      some
        { layout_from_pipeline_mode := 0
          entries := [
            { binding := 0, buffer := reversed_z_c.BufferHandle.uniform_buffer
              size := reversed_z_c.uniform_buffer_size },
            { binding := 1
              buffer := reversed_z_c.BufferHandle.camera_matrix_buffer
              size := reversed_z_c.sizeof_mat4 }] } ∧
    (reversed_z_c.setup_uniform_bind_groups
        reversed_z_c.uniform_bind_groups_initial) 1 =
      some
        { layout_from_pipeline_mode := 1
          entries := [
            { binding := 0, buffer := reversed_z_c.BufferHandle.uniform_buffer
              size := reversed_z_c.uniform_buffer_size },
            { binding := 1
              buffer :=
                reversed_z_c.BufferHandle.camera_matrix_reversed_depth_buffer
              size := reversed_z_c.sizeof_mat4 }] } ∧
    (reversed_z_c.setup_uniform_bind_groups
        reversed_z_c.uniform_bind_groups_initial) 0 ≠
      (reversed_z_c.setup_uniform_bind_groups
        reversed_z_c.uniform_bind_groups_initial) 1 := by
  decide

/-- C9: in `generate_quad` of the textured-quad example the byte size passed
when creating the index buffer is `indices.count * sizeof(uint32_t)` = 24
bytes, but the source array's declared element type is `uint16_t`, so the
array holds only 12 bytes (and the buffer is later bound as Uint16); the
creation copy therefore reads 12 bytes past the end of the source array,
contradicting the claimed in-bounds property. -/
theorem C9_index_buffer_size_mismatch :
    textured_quad_c.index_buffer_size = 24 ∧
    textured_quad_c.index_buffer_array_bytes = 12 ∧
    textured_quad_c.index_buffer_array_bytes <
      textured_quad_c.index_buffer_size ∧
    textured_quad_c.bound_index_format =
      textured_quad_c.IndexFormat.uint16 ∧
    textured_quad_c.index_buffer_size ≠
      textured_quad_c.indices_count * textured_quad_c.sizeof_uint16 := by
  decide

/-- C10: for each of the three examples (reversed-Z, textured-quad,
compute-particles), calling `example_render` with the `prepared` flag still
false returns 1, leaves the example's state unchanged, and produces no
events: no pass is encoded, no command buffer is built, nothing is
submitted. -/
theorem C10_render_unprepared_is_noop :
    (∀ (paused : Bool) (mode : reversed_z_c.render_mode_enum)
        (s : reversed_z_c.DescriptorState),
      reversed_z_c.example_render false paused mode s = (1, s, [])) ∧
    (∀ s : textured_quad_c.QuadState,
      textured_quad_c.example_render false s = (1, s, [])) ∧
    (∀ (frame_timer : ℚ) (s : compute_particles_c.ParticleState),
      compute_particles_c.example_render false frame_timer s = (1, s, [])) :=
  ⟨fun _ _ _ => rfl, fun _ => rfl, fun _ _ => rfl⟩
